import Mathlib

/-!
Shallow embedding of the Options Chain Scanner & Ranking Engine
(`options_data.py`): expiry resolution, symbol-universe generation,
batched quote retrieval with per-batch failure tolerance, activity
filtering, volume-availability detection, ranking, context/conclusion
generation, and the result envelope.

Numeric quote fields are modelled as rationals (`ℚ`); a field absent
from the upstream JSON is `none` and is read as `0` by the `.get(k, 0)`
accesses of the source.  Wall-clock moments are modelled as a day
counter (days since a reference Monday, so `days % 7` is Python's
`weekday()`) plus hour and minute.
-/

namespace OptionsScanner

/-- A raw quote record, one per contract identifier, as delivered by the
upstream feed.  Each field is optional: the Python code reads missing
fields with `data.get(field, 0)`. -/
structure Quote where
  ltp : Option ℚ
  openInterest : Option ℚ
  volume : Option ℚ
  totalBuyQty : Option ℚ
  totalSellQty : Option ℚ
  lastTradeQty : Option ℚ
  high : Option ℚ
  low : Option ℚ
deriving DecidableEq

/-- `qget x` is Python's `data.get(field, 0)`: the value if present, else 0. -/
def qget (x : Option ℚ) : ℚ := x.getD 0

/-- `has_valid_volume` from the source: `data.get("volume", 0) > 0`. -/
def has_valid_volume (d : Quote) : Bool := decide (0 < qget d.volume)

/-- `is_active_strike` from the source: open interest at least 3000,
total buy+sell quantity at least 15000, and last traded price above 1. -/
def is_active_strike (d : Quote) : Bool :=
  decide (3000 ≤ qget d.openInterest) &&
  decide (15000 ≤ qget d.totalBuyQty + qget d.totalSellQty) &&
  decide (1 < qget d.ltp)

/-- `liquidity_score` from the source.  The Python constants 0.4, 0.3,
0.2, 0.1 are the exact rationals 4/10, 3/10, 2/10, 1/10 here; the
`try/except` guard of the source is dead in this total model. -/
def liquidity_score (d : Quote) : ℚ :=
  qget d.openInterest * (4/10) +
  (qget d.totalBuyQty + qget d.totalSellQty) * (3/10) +
  qget d.lastTradeQty * (2/10) +
  |qget d.high - qget d.low| * (1/10)

/-- The five volume-signal tiers returned by `volume_signal`. -/
inductive VolSignal where
  | VERY_HIGH
  | HIGH
  | MEDIUM
  | LOW
  | UNAVAILABLE
deriving DecidableEq

/-- `volume_signal` from the source: tier thresholds on volume, with the
top tier additionally requiring open interest at least 20000. -/
def volume_signal (d : Quote) : VolSignal :=
  let vol := qget d.volume
  let oi := qget d.openInterest
  if 50000 ≤ vol ∧ 20000 ≤ oi then VolSignal.VERY_HIGH
  else if 20000 ≤ vol then VolSignal.HIGH
  else if 5000 ≤ vol then VolSignal.MEDIUM
  else if 0 < vol then VolSignal.LOW
  else VolSignal.UNAVAILABLE

/-- The display phrase `f-string vs.replace` builds for a volume signal:
the tier name with underscores replaced by spaces, then
" volume participation". -/
def signalPhrase : VolSignal → String
  | VolSignal.VERY_HIGH => "VERY HIGH volume participation"
  | VolSignal.HIGH => "HIGH volume participation"
  | VolSignal.MEDIUM => "MEDIUM volume participation"
  | VolSignal.LOW => "LOW volume participation"
  | VolSignal.UNAVAILABLE => "UNAVAILABLE volume participation"

/-- `build_context` from the source: the ordered list of qualitative
reason strings.  The first block always contributes exactly one of the
two volume-usability strings; later blocks contribute zero or one
string each. -/
def build_context (d : Quote) (volume_available : Bool) : List String :=
  (if volume_available = true ∧ 0 < qget d.volume then ["High traded volume"]
   else ["Volume unavailable, ranked using liquidity metrics"]) ++
  (if 30000 ≤ qget d.openInterest then ["Strong open interest (institutional positioning)"]
   else if 10000 ≤ qget d.openInterest then ["Moderate open interest"]
   else []) ++
  (if qget d.totalSellQty * 2 < qget d.totalBuyQty then
     ["Strong buying interest (buy qty >> sell qty)"]
   else if qget d.totalBuyQty * 2 < qget d.totalSellQty then
     ["Strong selling pressure (sell qty >> buy qty)"]
   else []) ++
  (if qget d.ltp < 30 then ["Low premium option, high gamma move potential"]
   else if 150 < qget d.ltp then ["High premium option, likely ATM/ITM and actively traded"]
   else []) ++
  (if volume_signal d = VolSignal.UNAVAILABLE then []
   else [signalPhrase (volume_signal d)])

/-- The `{bias, confidence, reason}` record returned by `build_conclusion`. -/
structure Conclusion where
  bias : String
  confidence : String
  reason : String
deriving DecidableEq

/-- `build_conclusion` from the source: an ordered if/elif chain,
first match wins, defaulting to NEUTRAL/LOW. -/
def build_conclusion (d : Quote) : Conclusion :=
  let b := qget d.totalBuyQty
  let s := qget d.totalSellQty
  let oi := qget d.openInterest
  let ltp := qget d.ltp
  if s * 2 < b ∧ 5000 ≤ oi then
    ⟨"BUY", if ltp < 30 then "HIGH" else "MEDIUM",
     "Strong buying interest with favorable risk-reward"⟩
  else if b * 2 < s ∧ 10000 ≤ oi ∧ 80 ≤ ltp then
    ⟨"SELL", "MEDIUM", "Heavy selling pressure with high open interest"⟩
  else
    ⟨"NEUTRAL", "LOW", "No strong directional edge"⟩

/-! ### Symbol generation -/

/-- `STRIKE_START` from the config block. -/
def STRIKE_START : ℕ := 24000

/-- `STRIKE_END` from the config block. -/
def STRIKE_END : ℕ := 27000

/-- `STRIKE_STEP` from the config block. -/
def STRIKE_STEP : ℕ := 50

/-- `STRIKES_PER_BATCH` from the config block. -/
def STRIKES_PER_BATCH : ℕ := 25

/-- Python's `range(a, b, s)` for a positive step `s`:
the list `a, a+s, a+2s, ...` of length `⌈(b-a)/s⌉`. -/
def pyRange (a b s : ℕ) : List ℕ :=
  (List.range ((b - a + s - 1) / s)).map (fun i => a + s * i)

/-- The option side of a contract. -/
inductive OptType where
  | CE
  | PE
deriving DecidableEq

/-- A contract identifier as generated for one strike and one side; the
expiry components of the serialized token are fixed per scan and carry
no information inside one scan. -/
structure ContractId where
  strike : ℕ
  optType : OptType
deriving DecidableEq

/-- Left-pads a number below 10 with a zero, Python's `f-string 02d`. -/
def pad2 (n : ℕ) : String := if n < 10 then "0" ++ toString n else toString n

/-- `logical_to_groww_symbol` from the source: the serialized token
`INDEX ++ YY ++ M ++ DD ++ strike ++ side`. -/
def logical_to_groww_symbol (year2 month day : ℕ) (c : ContractId) : String :=
  "NIFTY" ++ pad2 year2 ++ toString month ++ pad2 day ++ toString c.strike ++
    (match c.optType with
     | OptType.CE => "CE"
     | OptType.PE => "PE")

/-- One batch of the inner loop of `options_main`: the strikes
`range(start, start + STRIKE_STEP*STRIKES_PER_BATCH, STRIKE_STEP)`,
each contributing a CE identifier then a PE identifier. -/
def batchSymbols (start : ℕ) : List ContractId :=
  (pyRange start (start + STRIKE_STEP * STRIKES_PER_BATCH) STRIKE_STEP).flatMap
    (fun k => [⟨k, OptType.CE⟩, ⟨k, OptType.PE⟩])

/-- The batch start offsets of the outer loop of `options_main`:
`range(STRIKE_START, STRIKE_END, STRIKE_STEP*STRIKES_PER_BATCH)`. -/
def batchStarts : List ℕ := pyRange STRIKE_START STRIKE_END (STRIKE_STEP * STRIKES_PER_BATCH)

/-- The full emission sequence of the Symbol Generator: all batches in
order, each batch listing its strikes ascending, CE before PE. -/
def emittedSymbols : List ContractId := batchStarts.flatMap batchSymbols

/-- The generation order on contract identifiers: strictly ascending
strike, and CE before PE at equal strikes. -/
def emitOrder (c₁ c₂ : ContractId) : Prop :=
  c₁.strike < c₂.strike ∨
    (c₁.strike = c₂.strike ∧ c₁.optType = OptType.CE ∧ c₂.optType = OptType.PE)

instance : DecidableRel emitOrder := fun c₁ c₂ => by
  unfold emitOrder
  infer_instance

/-! ### Batched fetching -/

/-- Keys of the quote mapping (the serialized identifier strings). -/
abbrev Symbol := String

/-- A quote mapping: a response dict, modelled as an association list in
the dict's key-insertion order. -/
abbrev QuoteMap := List (Symbol × Quote)

/-- The possible outcomes of one batch call in `fetch_live_data`:
a 2xx response whose JSON body is a mapping, a 2xx response whose body
is not a mapping, or one of the caught exception classes. -/
inductive FetchOutcome where
  | ok (m : QuoteMap)
  | nonDictResponse
  | timeout
  | httpError
  | otherError

/-- `fetch_live_data` from the source, as a function of the network
outcome: a dict response is returned as-is, every other outcome (a
non-dict body, a timeout, an HTTP error, or any other exception) is
logged and becomes the empty mapping. -/
def fetch_live_data : FetchOutcome → QuoteMap
  | FetchOutcome.ok m => m
  | _ => []

/-- Whether a batch outcome is a failure (anything but a dict response). -/
def isFailedFetch : FetchOutcome → Bool
  | FetchOutcome.ok _ => false
  | _ => true

/-- Replaces a failed batch outcome by a successful empty response. -/
def maskFailed (o : FetchOutcome) : FetchOutcome :=
  if isFailedFetch o then FetchOutcome.ok [] else o

/-- First-key lookup in an association list (Python dict access). -/
def lookupKey (k : Symbol) : QuoteMap → Option Quote
  | [] => none
  | p :: t => if p.1 = k then some p.2 else lookupKey k t

/-- Python's `d1.update(d2)` on dicts: keys already in `d1` keep their
position and take their value from `d2` when present; keys only in `d2`
are appended in `d2`'s order. -/
def dictUpdate (d₁ d₂ : QuoteMap) : QuoteMap :=
  d₁.map (fun p =>
    match lookupKey p.1 d₂ with
    | some v => (p.1, v)
    | none => p) ++
  d₂.filter (fun p => (lookupKey p.1 d₁).isNone)

/-- The accumulation loop of `options_main`: starting from the empty
`raw_results`, `update` each batch response in order. -/
def accumulateBatches (rs : List QuoteMap) : QuoteMap := rs.foldl dictUpdate []

/-! ### Filtering, ranking and the envelope -/

/-- A `RankedEntry`: the per-contract output record built by
`options_main` for each active contract.  `ltp` and `openInterest` are
copied from the raw quote without a default (hence optional); the
quantity fields are read with default 0. -/
structure RankedEntry where
  ltp : Option ℚ
  openInterest : Option ℚ
  volume : ℚ
  totalBuyQty : ℚ
  totalSellQty : ℚ
  lastTradeQty : ℚ
  volumeSignal : VolSignal
  rankScore : ℚ
  context : List String
  conclusion : Conclusion
deriving DecidableEq

/-- The entry-construction block of the `options_main` filter loop. -/
def mkEntry (d : Quote) (volume_available : Bool) : RankedEntry :=
  ⟨d.ltp, d.openInterest, qget d.volume, qget d.totalBuyQty, qget d.totalSellQty,
   qget d.lastTradeQty, volume_signal d,
   if volume_available then qget d.volume else liquidity_score d,
   build_context d volume_available, build_conclusion d⟩

/-- The sort comparison of `options_main`'s final
`sorted(..., key=rankScore, reverse=True)`: descending rank score,
keeping the left element on ties (stability). -/
def rankLE (a b : Symbol × RankedEntry) : Bool := decide (b.2.rankScore ≤ a.2.rankScore)

/-- The filter-and-rank loop of `options_main`: the active contracts of
`raw`, in `raw`'s order, each mapped to its `RankedEntry` under the
scan-wide volume-availability flag. -/
def scanCandidates (raw : QuoteMap) : List (Symbol × RankedEntry) :=
  (raw.filter (fun p => is_active_strike p.2)).map
    (fun p => (p.1, mkEntry p.2 (raw.any (fun q => has_valid_volume q.2))))

/-- `options_main` from the source, as a function of the accumulated
`raw_results` mapping: empty input short-circuits to an empty result;
otherwise the active contracts are ranked and stably sorted by
descending `rankScore`. -/
def options_main (raw : QuoteMap) : List (Symbol × RankedEntry) :=
  if raw.isEmpty then []
  else (scanCandidates raw).mergeSort rankLE

/-- The response envelope of `run_scanner`.  Optional fields model dict
keys that are present only on some status values (`count` and `expiry`
are absent from the empty envelope, `message` from the success one);
the wall-clock `timestamp` field is outside the embedding. -/
structure Envelope where
  status : String
  message : Option String
  expiry : Option String
  count : Option ℕ
  data : List (Symbol × RankedEntry)
deriving DecidableEq

/-- `run_scanner` from the source, as a function of the accumulated raw
mapping and of the precomputed expiry label: an empty scan yields the
`empty` envelope (status, message, empty data — no count or expiry
key), a non-empty one the `success` envelope with the entry count.  The
outer `except` branch is unreachable in this total model. -/
def run_scanner (expiryLabel : String) (raw : QuoteMap) : Envelope :=
  let d := options_main raw
  if d.isEmpty then ⟨"empty", some "No active options found", none, none, []⟩
  else ⟨"success", none, some expiryLabel, some d.length, d⟩

/-! ### Expiry resolution -/

/-- A wall-clock moment: `days` counts days from a reference Monday (so
`days % 7` is Python's `weekday()`, Monday = 0, Tuesday = 1), plus the
hour and minute of day. -/
structure Moment where
  days : ℕ
  hour : ℕ
  minute : ℕ
deriving DecidableEq

/-- Python's `datetime.weekday()`: Monday = 0 … Sunday = 6. -/
def weekday (t : Moment) : ℕ := t.days % 7

/-- `t + timedelta(days = n)`: same time of day, `n` days later. -/
def addDays (t : Moment) (n : ℕ) : Moment := ⟨t.days + n, t.hour, t.minute⟩

/-- `get_weekly_expiry` from the source: move forward by
`(1 - weekday) % 7` days to the coming Tuesday (0 days when today is
Tuesday), then, if today is Tuesday and the time is at or past 15:30,
add another 7 days.  `(1 - weekday) % 7` is Python's signed modulo,
i.e. `(8 - weekday) % 7` for `weekday ≤ 6`.  The `except` fallback of
the source is unreachable in this total model. -/
def get_weekly_expiry (now : Moment) : Moment :=
  let wd := weekday now
  let days_to_tuesday := (8 - wd) % 7
  let expiry := addDays now days_to_tuesday
  if wd = 1 ∧ (15 < now.hour ∨ (now.hour = 15 ∧ 30 ≤ now.minute)) then
    addDays expiry 7
  else expiry

/-! ### Concrete probe inputs -/

/-- An active quote with positive traded volume. -/
def qVol : Quote := ⟨some 10, some 3000, some 7, some 15000, some 0, some 1, some 12, some 8⟩

/-- An active quote with no volume field at all. -/
def qNoVol : Quote := ⟨some 10, some 3000, none, some 15000, some 0, some 1, some 12, some 8⟩

/-- A quote with open interest 2999 and every other field far above the
activity thresholds. -/
def q2999 : Quote :=
  ⟨some 500, some 2999, some 999999, some 999999, some 999999, some 999999, some 1000, some 1⟩

/-- The boundary quote of the activity filter: open interest 3000,
buy+sell quantity 15000, last traded price 1.01. -/
def qBoundary : Quote := ⟨some (101/100), some 3000, none, some 15000, some 0, none, none, none⟩

/-- A conclusion probe: buy 100, sell 40, open interest 5000, ltp 25. -/
def probeBuyHigh : Quote := ⟨some 25, some 5000, none, some 100, some 40, none, none, none⟩

/-- A conclusion probe: buy 100, sell 40, open interest 5000, ltp 45. -/
def probeBuyMedium : Quote := ⟨some 45, some 5000, none, some 100, some 40, none, none, none⟩

/-- A one-contract raw mapping whose quote has positive volume. -/
def rawVol : QuoteMap := [("S1", qVol)]

/-- The ranked entry the scan builds for `rawVol`. -/
def peVol : Symbol × RankedEntry := ("S1", mkEntry qVol true)

/-- A one-contract raw mapping whose quote lacks the volume field. -/
def rawNoVol : QuoteMap := [("S2", qNoVol)]

/-- The ranked entry the scan builds for `rawNoVol`. -/
def peNoVol : Symbol × RankedEntry := ("S2", mkEntry qNoVol false)

/-- A two-contract raw mapping with identical quotes, hence tied rank scores. -/
def rawTie : QuoteMap := [("S1", qVol), ("S2", qVol)]

/-- The first tied entry of `rawTie`. -/
def peTieA : Symbol × RankedEntry := ("S1", mkEntry qVol true)

/-- The second tied entry of `rawTie`. -/
def peTieB : Symbol × RankedEntry := ("S2", mkEntry qVol true)

/-- A batch-outcome list with one successful and one timed-out batch. -/
def outsProbe : List FetchOutcome := [FetchOutcome.ok rawVol, FetchOutcome.timeout]

/-! ### Helper lemmas -/

/-- Membership in the configured strike range: exactly the multiples of
50 in `[24000, 27000)`. -/
theorem mem_strikeRange (x : ℕ) :
    x ∈ pyRange STRIKE_START STRIKE_END STRIKE_STEP ↔ 24000 ≤ x ∧ x < 27000 ∧ x % 50 = 0 := by
  simp only [pyRange, STRIKE_START, STRIKE_END, STRIKE_STEP, List.mem_map, List.mem_range]
  constructor
  · rintro ⟨i, hi, rfl⟩
    omega
  · rintro ⟨h1, h2, h3⟩
    exact ⟨(x - 24000) / 50, by omega, by omega⟩

set_option maxRecDepth 40000 in
/-- Each in-range strike gets exactly one CE and one PE identifier. -/
theorem counts_emittedSymbols :
    ∀ s ∈ pyRange STRIKE_START STRIKE_END STRIKE_STEP,
      emittedSymbols.count ⟨s, OptType.CE⟩ = 1 ∧
      emittedSymbols.count ⟨s, OptType.PE⟩ = 1 := by decide

/-- Unfolding of membership in the scan result: every output entry
comes from an active raw quote via `mkEntry` under the scan-wide
volume flag. -/
theorem mem_options_main {raw : QuoteMap} {pe : Symbol × RankedEntry}
    (h : pe ∈ options_main raw) :
    ∃ p ∈ raw, is_active_strike p.2 = true ∧
      pe = (p.1, mkEntry p.2 (raw.any (fun q => has_valid_volume q.2))) := by
  unfold options_main at h
  split at h
  · simp at h
  · rw [List.mem_mergeSort] at h
    unfold scanCandidates at h
    rw [List.mem_map] at h
    obtain ⟨p, hp, hpe⟩ := h
    rw [List.mem_filter] at hp
    exact ⟨p, hp.1, hp.2, hpe.symm⟩

/-- The first reason of `build_context` is always exactly one of the
two volume-usability strings, selected by the scan-wide flag and the
contract's own volume. -/
theorem head_build_context (d : Quote) (va : Bool) :
    (build_context d va).head? =
      some (if va = true ∧ 0 < qget d.volume then "High traded volume"
            else "Volume unavailable, ranked using liquidity metrics") := by
  unfold build_context
  split
  · rfl
  · rfl

/-- The sort comparison is transitive. -/
theorem rankLE_trans : ∀ a b c : Symbol × RankedEntry, rankLE a b → rankLE b c → rankLE a c := by
  intro a b c hab hbc
  simp only [rankLE, decide_eq_true_eq] at hab hbc ⊢
  exact le_trans hbc hab

/-- The sort comparison is total. -/
theorem rankLE_total : ∀ a b : Symbol × RankedEntry, rankLE a b || rankLE b a := by
  intro a b
  simp only [rankLE, Bool.or_eq_true, decide_eq_true_eq]
  exact le_total _ _

/-- Updating a dict with an empty dict changes nothing. -/
theorem dictUpdate_nil_right (d : QuoteMap) : dictUpdate d [] = d := by
  simp [dictUpdate, lookupKey]

/-- Accumulating only empty batch contributions yields the empty mapping. -/
theorem accumulateBatches_all_nil (rs : List QuoteMap) (h : ∀ m ∈ rs, m = []) :
    accumulateBatches rs = [] := by
  unfold accumulateBatches
  induction rs with
  | nil => rfl
  | cons m t ih =>
    rw [List.foldl_cons, h m (List.mem_cons_self m t), dictUpdate_nil_right]
    exact ih (fun x hx => h x (List.mem_cons_of_mem m hx))

/-- A scan with no active contract produces an empty result list. -/
theorem options_main_eq_nil (raw : QuoteMap) (h : ∀ p ∈ raw, ¬ is_active_strike p.2 = true) :
    options_main raw = [] := by
  unfold options_main
  split
  · rfl
  · have hc : scanCandidates raw = [] := by
      unfold scanCandidates
      rw [List.filter_eq_nil_iff.mpr (by simpa using h)]
      rfl
    rw [hc]
    exact List.mergeSort_nil

/-- A scan with at least one active contract produces a non-empty result. -/
theorem options_main_length_pos (raw : QuoteMap) (p : Symbol × Quote) (hp : p ∈ raw)
    (hact : is_active_strike p.2 = true) : 0 < (options_main raw).length := by
  unfold options_main
  rw [if_neg (by simp [List.isEmpty_iff]; rintro rfl; simp at hp)]
  rw [List.length_mergeSort]
  unfold scanCandidates
  rw [List.length_map]
  have hmem : p ∈ raw.filter (fun q => is_active_strike q.2) := List.mem_filter.mpr ⟨hp, hact⟩
  exact List.length_pos.mpr (fun hnil => by rw [hnil] at hmem; simp at hmem)

/-- A successful first-key lookup witnesses membership. -/
theorem lookupKey_some_mem {k : Symbol} {d : QuoteMap} {v : Quote}
    (h : lookupKey k d = some v) : (k, v) ∈ d := by
  induction d with
  | nil => simp [lookupKey] at h
  | cons p t ih =>
    unfold lookupKey at h
    split at h
    · rename_i hk
      rw [Option.some_inj] at h
      rw [← hk, ← h, Prod.mk.eta]
      exact List.mem_cons_self p t
    · exact List.mem_cons_of_mem p (ih h)

/-- `dictUpdate` keeps every key of its left argument. -/
theorem keyMem_dictUpdate_left {s : Symbol} {d₁ d₂ : QuoteMap}
    (h : ∃ v, (s, v) ∈ d₁) : ∃ v, (s, v) ∈ dictUpdate d₁ d₂ := by
  obtain ⟨v, hv⟩ := h
  refine ⟨(match lookupKey s d₂ with | some w => w | none => v), ?_⟩
  apply List.mem_append_left
  have hm := List.mem_map_of_mem (fun p : Symbol × Quote =>
    match lookupKey p.1 d₂ with
    | some w => (p.1, w)
    | none => p) hv
  convert hm using 1
  cases hl : lookupKey s d₂ <;> simp [hl]

/-- `dictUpdate` keeps every key of its right argument. -/
theorem keyMem_dictUpdate_right {s : Symbol} {d₁ d₂ : QuoteMap}
    (h : ∃ v, (s, v) ∈ d₂) : ∃ v, (s, v) ∈ dictUpdate d₁ d₂ := by
  obtain ⟨v, hv⟩ := h
  cases hl : lookupKey s d₁ with
  | some w => exact keyMem_dictUpdate_left ⟨w, lookupKey_some_mem hl⟩
  | none =>
    refine ⟨v, List.mem_append_right _ ?_⟩
    exact List.mem_filter.mpr ⟨hv, by simp [hl]⟩

/-- Keys present in the accumulator or in any batch contribution
survive the whole accumulation fold. -/
theorem keyMem_accumulate (rs : List QuoteMap) (acc : QuoteMap) (s : Symbol)
    (h : (∃ v, (s, v) ∈ acc) ∨ ∃ m ∈ rs, ∃ v, (s, v) ∈ m) :
    ∃ v, (s, v) ∈ rs.foldl dictUpdate acc := by
  induction rs generalizing acc with
  | nil =>
    rcases h with h | ⟨m, hm, _⟩
    · exact h
    · simp at hm
  | cons m t ih =>
    rw [List.foldl_cons]
    apply ih
    rcases h with h | ⟨m2, hm2, hv⟩
    · exact Or.inl (keyMem_dictUpdate_left h)
    · rcases List.mem_cons.mp hm2 with rfl | hm2t
      · exact Or.inl (keyMem_dictUpdate_right hv)
      · exact Or.inr ⟨m2, hm2t, hv⟩

/-- The volume-probe quote is active. -/
theorem active_qVol : is_active_strike qVol = true := by
  norm_num [is_active_strike, qVol, qget]

/-- The volume-less probe quote is active. -/
theorem active_qNoVol : is_active_strike qNoVol = true := by
  norm_num [is_active_strike, qNoVol, qget]

/-- The volume-probe quote has positive volume. -/
theorem hvv_qVol : has_valid_volume qVol = true := by
  norm_num [has_valid_volume, qVol, qget]

/-- The volume-less probe quote has no positive volume. -/
theorem hvv_qNoVol : has_valid_volume qNoVol = false := by
  simp [has_valid_volume, qNoVol, qget]

/-- The `rawVol` scan sees volume as available. -/
theorem anyVol_rawVol : rawVol.any (fun q => has_valid_volume q.2) = true := by
  simp [rawVol, hvv_qVol]

/-- The `rawNoVol` scan sees volume as unavailable. -/
theorem anyVol_rawNoVol : rawNoVol.any (fun q => has_valid_volume q.2) = false := by
  simp [rawNoVol, hvv_qNoVol]

/-- The `rawTie` scan sees volume as available. -/
theorem anyVol_rawTie : rawTie.any (fun q => has_valid_volume q.2) = true := by
  simp [rawTie, hvv_qVol]

/-- The scan candidates of `rawVol`. -/
theorem scanCandidates_rawVol : scanCandidates rawVol = [peVol] := by
  simp [scanCandidates, rawVol, peVol, active_qVol, hvv_qVol, List.filter]

/-- The scan candidates of `rawNoVol`. -/
theorem scanCandidates_rawNoVol : scanCandidates rawNoVol = [peNoVol] := by
  simp [scanCandidates, rawNoVol, peNoVol, active_qNoVol, hvv_qNoVol, List.filter]

/-- The scan candidates of `rawTie`. -/
theorem scanCandidates_rawTie : scanCandidates rawTie = [peTieA, peTieB] := by
  simp [scanCandidates, rawTie, peTieA, peTieB, active_qVol, hvv_qVol, List.filter]

/-- The scan result of `rawVol`. -/
theorem options_main_rawVol : options_main rawVol = [peVol] := by
  rw [options_main, if_neg (by simp [rawVol]), scanCandidates_rawVol]
  exact List.mergeSort_singleton peVol

/-- The scan result of `rawNoVol`. -/
theorem options_main_rawNoVol : options_main rawNoVol = [peNoVol] := by
  rw [options_main, if_neg (by simp [rawNoVol]), scanCandidates_rawNoVol]
  exact List.mergeSort_singleton peNoVol

/-! ### Claim theorems -/

set_option maxRecDepth 40000 in
/-- C1 (counterexample): the claim that the Symbol Generator emits
identifiers for no strike outside `[STRIKE_START, STRIKE_END)` is false
on the code: a CE identifier for strike 27000 is emitted even though
27000 is not below `STRIKE_END`, because the last batch of the outer
loop runs a full `STRIKE_STEP * STRIKES_PER_BATCH` width past 27000. -/
theorem C1_counterexample :
    ContractId.mk 27000 OptType.CE ∈ emittedSymbols ∧ STRIKE_END ≤ 27000 := by decide

set_option maxRecDepth 40000 in
/-- C1 (amended): every strike `s` with
`STRIKE_START ≤ s < STRIKE_END` and `(s - STRIKE_START)` divisible by
`STRIKE_STEP` receives exactly one CE and one PE identifier; the whole
emitted sequence is ordered by ascending strike with CE before PE at
each strike; but the emitted strikes range over
`[STRIKE_START, STRIKE_START + batches * batchWidth)` — the last batch
is padded to the full batch width, so strikes from `STRIKE_END` up to
27700 are emitted as well (all of them multiples of `STRIKE_STEP`). -/
theorem C1_symbol_universe :
    (∀ s, STRIKE_START ≤ s → s < STRIKE_END → (s - STRIKE_START) % STRIKE_STEP = 0 →
      emittedSymbols.count ⟨s, OptType.CE⟩ = 1 ∧
      emittedSymbols.count ⟨s, OptType.PE⟩ = 1) ∧
    List.Pairwise emitOrder emittedSymbols ∧
    (∀ c ∈ emittedSymbols,
      STRIKE_START ≤ c.strike ∧
      c.strike < STRIKE_START + batchStarts.length * (STRIKE_STEP * STRIKES_PER_BATCH) ∧
      c.strike % STRIKE_STEP = 0) := by
  refine ⟨?_, by decide, by decide⟩
  intro s h1 h2 h3
  exact counts_emittedSymbols s (mem_strikeRange s |>.mpr ⟨h1, h2, by
    simp only [STRIKE_START, STRIKE_END, STRIKE_STEP] at h1 h2 h3
    omega⟩)

/-- C1 (witness): the amended theorem applied at strike 24000. -/
theorem C1_witness :
    emittedSymbols.count ⟨24000, OptType.CE⟩ = 1 ∧
    emittedSymbols.count ⟨24000, OptType.PE⟩ = 1 :=
  C1_symbol_universe.1 24000 (by decide) (by decide) (by decide)

/-- C2 (counterexample): the claim that an all-empty scan returns an
envelope with `count = 0` is false on the code: the `empty` envelope
of `run_scanner` carries no `count` key at all (here: `count = none`),
even though its status is `empty` and its data mapping is empty. -/
theorem C2_counterexample :
    (run_scanner "3-6-2025" []).status = "empty" ∧
    (run_scanner "3-6-2025" []).data = [] ∧
    (run_scanner "3-6-2025" []).count = none ∧
    ¬ (run_scanner "3-6-2025" []).count = some 0 := by decide

/-- C2 (amended): if every batch contributes an empty mapping the
accumulated map is empty; whenever nothing passes the Activity Filter
(in particular on an empty accumulated map) `run_scanner` returns the
`empty` envelope — status `empty`, empty data, and no count field —
and when at least one contract passes, the envelope has status
`success` with `count` equal to the number of returned entries. -/
theorem C2_envelope_status (lbl : String) (raw : QuoteMap) :
    (∀ outs : List FetchOutcome, (∀ o ∈ outs, fetch_live_data o = []) →
      accumulateBatches (outs.map fetch_live_data) = []) ∧
    ((∀ p ∈ raw, ¬ is_active_strike p.2 = true) →
      run_scanner lbl raw = ⟨"empty", some "No active options found", none, none, []⟩) ∧
    ((∃ p ∈ raw, is_active_strike p.2 = true) →
      (run_scanner lbl raw).status = "success" ∧
      (run_scanner lbl raw).count = some (options_main raw).length ∧
      (run_scanner lbl raw).data = options_main raw ∧
      0 < (options_main raw).length) := by
  refine ⟨?_, ?_, ?_⟩
  · intro outs h
    apply accumulateBatches_all_nil
    intro m hm
    rw [List.mem_map] at hm
    obtain ⟨o, ho, rfl⟩ := hm
    exact h o ho
  · intro h
    unfold run_scanner
    rw [options_main_eq_nil raw h]
    rfl
  · rintro ⟨p, hp, hact⟩
    have hpos := options_main_length_pos raw p hp hact
    unfold run_scanner
    rw [if_neg (by simp [List.isEmpty_iff]; intro hnil; rw [hnil] at hpos; simp at hpos)]
    exact ⟨rfl, rfl, rfl, hpos⟩

/-- C2 (witness): on the one-active-contract input the envelope is a
success with count 1; on the empty input it is the empty envelope. -/
theorem C2_witness :
    ((run_scanner "3-6-2025" rawVol).status = "success" ∧
      (run_scanner "3-6-2025" rawVol).count = some (options_main rawVol).length ∧
      (run_scanner "3-6-2025" rawVol).data = options_main rawVol ∧
      0 < (options_main rawVol).length) ∧
    run_scanner "3-6-2025" [] = ⟨"empty", some "No active options found", none, none, []⟩ :=
  ⟨(C2_envelope_status "3-6-2025" rawVol).2.2
      ⟨("S1", qVol), by simp [rawVol], active_qVol⟩,
   (C2_envelope_status "3-6-2025" []).2.1 (by simp)⟩

/-- C3: the scan result is ordered by `rankScore` descending, and any
two candidate entries in generation order (the order of the
accumulated raw mapping, i.e. ascending strike with CE before PE as
emitted by the Symbol Generator) with equal `rankScore` keep exactly
that order in the result: the sort is stable. -/
theorem C3_stable_sort (raw : QuoteMap) :
    List.Pairwise (fun a b : Symbol × RankedEntry => b.2.rankScore ≤ a.2.rankScore)
      (options_main raw) ∧
    (∀ a b : Symbol × RankedEntry, List.Sublist [a, b] (scanCandidates raw) →
      a.2.rankScore = b.2.rankScore → List.Sublist [a, b] (options_main raw)) := by
  constructor
  · unfold options_main
    split
    · exact List.Pairwise.nil
    · exact (List.sorted_mergeSort rankLE_trans rankLE_total _).imp
        (fun h => by simpa [rankLE] using h)
  · intro a b hsub heq
    unfold options_main
    split
    · rename_i h
      rw [List.isEmpty_iff] at h
      subst h
      simp [scanCandidates] at hsub
    · refine List.sublist_mergeSort rankLE_trans rankLE_total ?_ hsub
      simp [List.pairwise_cons, rankLE, heq]

/-- C3 (witness): the stability part applied to two identical-score
entries of a concrete scan: their generation order is preserved. -/
theorem C3_witness : List.Sublist [peTieA, peTieB] (options_main rawTie) :=
  (C3_stable_sort rawTie).2 peTieA peTieB (by rw [scanCandidates_rawTie]) rfl

/-- C4: the Expiry Resolver keeps the time of day and returns the date
of the next Tuesday on or after the given moment: the result is always
a Tuesday no earlier than today; on a Tuesday strictly before 15:30 it
is today itself, on a Tuesday at or past 15:30 it is exactly 7 days
later; on any other weekday it is the unique Tuesday within the
coming 6 days (no earlier day in between is a Tuesday). -/
theorem C4_weekly_expiry (now : Moment) :
    (get_weekly_expiry now).hour = now.hour ∧
    (get_weekly_expiry now).minute = now.minute ∧
    (get_weekly_expiry now).days % 7 = 1 ∧
    now.days ≤ (get_weekly_expiry now).days ∧
    (weekday now = 1 →
      ((now.hour < 15 ∨ (now.hour = 15 ∧ now.minute < 30)) →
        (get_weekly_expiry now).days = now.days) ∧
      ((15 < now.hour ∨ (now.hour = 15 ∧ 30 ≤ now.minute)) →
        (get_weekly_expiry now).days = now.days + 7)) ∧
    (¬ weekday now = 1 →
      (get_weekly_expiry now).days < now.days + 7 ∧
      ∀ d, now.days ≤ d → d < (get_weekly_expiry now).days → d % 7 ≠ 1) := by
  simp only [get_weekly_expiry, weekday, addDays]
  split
  · rename_i h
    simp only
    refine ⟨trivial, trivial, by omega, by omega,
      fun _ => ⟨fun hb => by omega, fun _ => by omega⟩, fun hne => absurd h.1 hne⟩
  · rename_i h
    simp only
    refine ⟨trivial, trivial, by omega, by omega,
      fun h1 => ⟨fun _ => by omega, fun hc => ?_⟩,
      fun hne => ⟨by omega, fun d hd1 hd2 => by omega⟩⟩
    exact absurd ⟨h1, hc⟩ h

/-- C4 (witness): at the cutoff instant 15:30 on a Tuesday (day 1 of
the reference week) the expiry rolls 7 days forward; one minute
earlier it stays on the same day. -/
theorem C4_witness :
    (get_weekly_expiry ⟨1, 15, 30⟩).days = 1 + 7 ∧
    (get_weekly_expiry ⟨1, 15, 29⟩).days = 1 :=
  ⟨((C4_weekly_expiry ⟨1, 15, 30⟩).2.2.2.2.1 (by decide)).2 (by norm_num),
   ((C4_weekly_expiry ⟨1, 15, 29⟩).2.2.2.2.1 (by decide)).1 (by norm_num)⟩

/-- C5: if some fetched quote has positive volume, every entry of the
scan result is ranked by its own raw volume (absent volume read as 0);
if no fetched quote has positive volume, every entry is ranked by the
liquidity-proxy formula `0.4*oi + 0.3*(buy+sell) + 0.2*lastTradeQty +
0.1*|high-low|` — the same formula for every contract of the scan. -/
theorem C5_rank_formula (raw : QuoteMap) :
    ((∃ p ∈ raw, 0 < qget p.2.volume) →
      ∀ pe ∈ options_main raw, ∃ q, (pe.1, q) ∈ raw ∧
        pe.2.rankScore = qget q.volume) ∧
    ((∀ p ∈ raw, ¬ 0 < qget p.2.volume) →
      ∀ pe ∈ options_main raw, ∃ q, (pe.1, q) ∈ raw ∧
        pe.2.rankScore = liquidity_score q) := by
  constructor
  · intro hex pe hpe
    obtain ⟨p, hp, hact, rfl⟩ := mem_options_main hpe
    have hany : raw.any (fun q => has_valid_volume q.2) = true := by
      rw [List.any_eq_true]
      obtain ⟨q, hq, hv⟩ := hex
      exact ⟨q, hq, by simpa [has_valid_volume] using hv⟩
    refine ⟨p.2, by simpa using hp, ?_⟩
    simp [mkEntry, hany]
  · intro hall pe hpe
    obtain ⟨p, hp, hact, rfl⟩ := mem_options_main hpe
    have hany : raw.any (fun q => has_valid_volume q.2) = false := by
      rw [List.any_eq_false]
      intro q hq
      simpa [has_valid_volume] using hall q hq
    refine ⟨p.2, by simpa using hp, ?_⟩
    simp [mkEntry, hany]

/-- C5 (witness): both branches at concrete scans — with volume
available the single entry is ranked by its raw volume, without it by
the liquidity proxy. -/
theorem C5_witness :
    (∃ q, (peVol.1, q) ∈ rawVol ∧ peVol.2.rankScore = qget q.volume) ∧
    (∃ q, (peNoVol.1, q) ∈ rawNoVol ∧ peNoVol.2.rankScore = liquidity_score q) :=
  ⟨(C5_rank_formula rawVol).1 ⟨("S1", qVol), by simp [rawVol], by norm_num [qVol, qget]⟩
      peVol (by rw [options_main_rawVol]; exact List.mem_cons_self _ _),
   (C5_rank_formula rawNoVol).2 (by simp [rawNoVol, qNoVol, qget])
      peNoVol (by rw [options_main_rawNoVol]; exact List.mem_cons_self _ _)⟩

/-- C6: a quote is active iff open interest is at least 3000, the
buy+sell quantity is at least 15000, and the last traded price exceeds
1 (absent fields read as 0); a quote with open interest 2999 is never
active regardless of its other fields; the boundary quote with open
interest 3000, buy+sell 15000 and ltp 1.01 is active. -/
theorem C6_activity_filter (d : Quote) :
    (is_active_strike d = true ↔
      (3000 ≤ qget d.openInterest ∧
        15000 ≤ qget d.totalBuyQty + qget d.totalSellQty ∧ 1 < qget d.ltp)) ∧
    (qget d.openInterest = 2999 → is_active_strike d = false) ∧
    is_active_strike qBoundary = true := by
  refine ⟨?_, ?_, by norm_num [is_active_strike, qBoundary, qget]⟩
  · simp [is_active_strike, and_assoc]
  · intro h
    norm_num [is_active_strike, h]

/-- C6 (witness): the 2999-open-interest quote with huge other fields
is rejected by the filter. -/
theorem C6_witness : is_active_strike q2999 = false :=
  (C6_activity_filter q2999).2.1 (by norm_num [q2999, qget])

/-- C7: a failed batch (timeout, HTTP error, unexpected error, or a
non-mapping response body) contributes the empty mapping; the
accumulated raw mapping is exactly what it would be had the failed
batches returned empty successful responses; and every contract of
every successful batch appears (by key) in the accumulated mapping. -/
theorem C7_partial_failure (outs : List FetchOutcome) :
    (∀ o ∈ outs, isFailedFetch o = true → fetch_live_data o = []) ∧
    accumulateBatches ((outs.map maskFailed).map fetch_live_data) =
      accumulateBatches (outs.map fetch_live_data) ∧
    (∀ m, FetchOutcome.ok m ∈ outs → ∀ s q, (s, q) ∈ m →
      ∃ v, (s, v) ∈ accumulateBatches (outs.map fetch_live_data)) := by
  refine ⟨?_, ?_, ?_⟩
  · intro o _ hf
    cases o <;> first | rfl | simp [isFailedFetch] at hf
  · rw [List.map_map]
    congr 1
    apply List.map_congr_left
    intro o _
    cases o <;> rfl
  · intro m hm s q hq
    apply keyMem_accumulate
    exact Or.inr ⟨m, List.mem_map_of_mem fetch_live_data hm, q, hq⟩

/-- C7 (witness): with one successful and one timed-out batch, the
successful batch's contract is present in the accumulated mapping. -/
theorem C7_witness :
    ∃ v, (("S1" : Symbol), v) ∈ accumulateBatches (outsProbe.map fetch_live_data) :=
  (C7_partial_failure outsProbe).2.2 rawVol (List.mem_cons_self _ _) "S1" qVol
    (List.mem_cons_self _ _)

/-- C8: `build_conclusion` is a first-match rule chain: buy pressure
(buy > 2*sell and oi >= 5000) yields BUY with HIGH confidence below
ltp 30 and MEDIUM otherwise; failing that, sell pressure (sell >
2*buy, oi >= 10000, ltp >= 80) yields SELL/MEDIUM; otherwise
NEUTRAL/LOW; and the two probe inputs (buy 100, sell 40, oi 5000, ltp
25 resp. 45) yield BUY/HIGH resp. BUY/MEDIUM. -/
theorem C8_conclusion_rules (d : Quote) :
    ((qget d.totalSellQty * 2 < qget d.totalBuyQty ∧ 5000 ≤ qget d.openInterest) →
      build_conclusion d =
        ⟨"BUY", if qget d.ltp < 30 then "HIGH" else "MEDIUM",
         "Strong buying interest with favorable risk-reward"⟩) ∧
    (¬ (qget d.totalSellQty * 2 < qget d.totalBuyQty ∧ 5000 ≤ qget d.openInterest) →
      (qget d.totalBuyQty * 2 < qget d.totalSellQty ∧ 10000 ≤ qget d.openInterest ∧
        80 ≤ qget d.ltp) →
      build_conclusion d =
        ⟨"SELL", "MEDIUM", "Heavy selling pressure with high open interest"⟩) ∧
    (¬ (qget d.totalSellQty * 2 < qget d.totalBuyQty ∧ 5000 ≤ qget d.openInterest) →
      ¬ (qget d.totalBuyQty * 2 < qget d.totalSellQty ∧ 10000 ≤ qget d.openInterest ∧
        80 ≤ qget d.ltp) →
      build_conclusion d = ⟨"NEUTRAL", "LOW", "No strong directional edge"⟩) ∧
    build_conclusion probeBuyHigh =
      ⟨"BUY", "HIGH", "Strong buying interest with favorable risk-reward"⟩ ∧
    build_conclusion probeBuyMedium =
      ⟨"BUY", "MEDIUM", "Strong buying interest with favorable risk-reward"⟩ := by
  refine ⟨?_, ?_, ?_, ?_, ?_⟩
  · intro h
    unfold build_conclusion
    dsimp only
    rw [if_pos h]
  · intro h1 h2
    unfold build_conclusion
    dsimp only
    rw [if_neg h1, if_pos h2]
  · intro h1 h2
    unfold build_conclusion
    dsimp only
    rw [if_neg h1, if_neg h2]
  · norm_num [build_conclusion, probeBuyHigh, qget]
  · norm_num [build_conclusion, probeBuyMedium, qget]

/-- C8 (witness): the first rule applied at the concrete BUY/HIGH probe. -/
theorem C8_witness :
    build_conclusion probeBuyHigh =
      ⟨"BUY", if qget probeBuyHigh.ltp < 30 then "HIGH" else "MEDIUM",
       "Strong buying interest with favorable risk-reward"⟩ :=
  (C8_conclusion_rules probeBuyHigh).1 (by norm_num [probeBuyHigh, qget])

/-- C9: every entry of the scan result stems from a raw quote passing
the activity predicate, and its `ltp` and `openInterest` fields —
copied from the raw quote without a default — are present, with
`ltp > 1` and `openInterest ≥ 3000`. -/
theorem C9_entry_invariant (raw : QuoteMap) :
    ∀ pe ∈ options_main raw,
      (∃ q, (pe.1, q) ∈ raw ∧ is_active_strike q = true) ∧
      (∃ v, pe.2.ltp = some v ∧ 1 < v) ∧
      (∃ w, pe.2.openInterest = some w ∧ 3000 ≤ w) := by
  intro pe hpe
  obtain ⟨p, hp, hact, rfl⟩ := mem_options_main hpe
  simp only [is_active_strike, Bool.and_eq_true, decide_eq_true_eq] at hact
  obtain ⟨⟨hoi, hqty⟩, hltp⟩ := hact
  refine ⟨⟨p.2, by simpa using hp, ?_⟩, ?_, ?_⟩
  · simp [is_active_strike]
    exact ⟨⟨hoi, hqty⟩, hltp⟩
  · match hv : p.2.ltp with
    | none => rw [qget, hv] at hltp; norm_num at hltp
    | some v => exact ⟨v, by simp [mkEntry, hv], by rw [qget, hv] at hltp; exact hltp⟩
  · match hv : p.2.openInterest with
    | none => rw [qget, hv] at hoi; norm_num at hoi
    | some w => exact ⟨w, by simp [mkEntry, hv], by rw [qget, hv] at hoi; exact hoi⟩

/-- C9 (witness): the invariant instantiated on a concrete scan entry. -/
theorem C9_witness :
    (∃ q, (peVol.1, q) ∈ rawVol ∧ is_active_strike q = true) ∧
    (∃ v, peVol.2.ltp = some v ∧ 1 < v) ∧
    (∃ w, peVol.2.openInterest = some w ∧ 3000 ≤ w) :=
  C9_entry_invariant rawVol peVol (by rw [options_main_rawVol]; exact List.mem_cons_self _ _)

/-- C10: every scan entry's context reason list is non-empty and its
first element is exactly one of the two volume-usability strings:
"High traded volume" when the scan-wide volume flag is set and the
contract's own volume is positive, and "Volume unavailable, ranked
using liquidity metrics" in every other case. -/
theorem C10_context_head (raw : QuoteMap) :
    ∀ pe ∈ options_main raw,
      pe.2.context ≠ [] ∧
      ((raw.any (fun p => has_valid_volume p.2) = true ∧ 0 < pe.2.volume) →
        pe.2.context.head? = some "High traded volume") ∧
      (¬ (raw.any (fun p => has_valid_volume p.2) = true ∧ 0 < pe.2.volume) →
        pe.2.context.head? = some "Volume unavailable, ranked using liquidity metrics") := by
  intro pe hpe
  obtain ⟨p, hp, hact, rfl⟩ := mem_options_main hpe
  have hh := head_build_context p.2 (raw.any (fun q => has_valid_volume q.2))
  refine ⟨?_, fun hc => ?_, fun hc => ?_⟩
  · intro hnil
    simp only [mkEntry] at hnil
    rw [hnil] at hh
    simp at hh
  · simp only [mkEntry] at hc ⊢
    rw [hh, if_pos hc]
  · simp only [mkEntry] at hc ⊢
    rw [hh, if_neg hc]

/-- C10 (witness): on a volume-available scan the concrete entry's
first context reason is the high-traded-volume string. -/
theorem C10_witness : peVol.2.context.head? = some "High traded volume" :=
  ((C10_context_head rawVol) peVol
      (by rw [options_main_rawVol]; exact List.mem_cons_self _ _)).2.1
    ⟨anyVol_rawVol, by norm_num [peVol, mkEntry, qVol, qget]⟩

end OptionsScanner
